import Mathlib

/-
  Verification development for the Tuyok repository (GPU compute harness +
  search/reduction driver).

  Shallow embedding conventions:
  * IEEE-754 doubles are modelled as exact rationals (ℚ).  `struct.pack('d', x)`
    is modelled as an atomic 8-byte unit carrying the value x; packing and
    unpacking a finite double is bit-exact, which this embedding reflects by
    keeping the value intact.
  * A serialized byte string is a list of `Atom`s: an 8-byte double, a 4-byte
    unsigned 32-bit integer, or a single zero pad byte (`b'\x00'`).
  * numpy structured dtypes are modelled as field tables with explicit byte
    sizes; `itemsize` is the sum of the field sizes (packed layout, align=False,
    exactly as `np.dtype` builds the dtypes in Model.py).
  * `np.cbrt` computes an irrational real in general; it is modelled as an
    explicit function parameter `cbrt : ℚ → ℚ`, and theorems that depend on its
    value carry the defining hypothesis `(cbrt p) ^ 3 = p` (exactness at the
    input of interest).
-/

namespace Tuyok

/-- One atomic unit of a packed byte string produced by `struct.pack`:
an 8-byte little-endian double, a 4-byte unsigned int, or one zero pad byte. -/
inductive Atom where
  | f64 (x : ℚ)
  | u32 (n : ℕ)
  | pad
deriving DecidableEq

/-- Byte width of one atom. -/
def Atom.size : Atom → ℕ
  | .f64 _ => 8
  | .u32 _ => 4
  | .pad => 1

/-- Length in bytes of a packed byte string (`len(input_bytes)`). -/
def byteLength (l : List Atom) : ℕ := (l.map Atom.size).sum

/-- Model.py `_layer_dtype`: field names with byte sizes
(five float64 fields, packed). -/
def layer_dtype_fields : List (String × ℕ) :=
  [("a", 8), ("b", 8), ("c", 8), ("r", 8), ("density", 8)]

/-- `Model._layer_dtype.itemsize` (numpy packed layout: sum of field sizes). -/
def layer_dtype_itemsize : ℕ := (layer_dtype_fields.map Prod.snd).sum

/-- Model.py `_model_dtype`: field names with byte sizes.  The `layers` field is
a sub-array of 20 layer records. -/
def model_dtype_fields : List (String × ℕ) :=
  [("angular_momentum", 8), ("num_layers", 4), ("_pad_to_16", 4),
   ("layers", 20 * layer_dtype_itemsize),
   ("rel_equipotential_err", 8), ("total_energy", 8), ("angular_velocity", 8),
   ("moment_of_inertia", 8), ("potential_energy", 8), ("kinetic_energy", 8),
   ("virial_ratio", 8), ("padding_sentinel", 8), ("score", 8)]

/-- `Model._model_dtype.itemsize`. -/
def model_dtype_itemsize : ℕ := (model_dtype_fields.map Prod.snd).sum

/-- A layer as supplied to the `Model` constructor: a python dict that may
contain `abc`, may contain `r`, and contains `density`. -/
structure LayerIn where
  abc : Option (ℚ × ℚ × ℚ)
  r : Option ℚ
  density : ℚ
deriving DecidableEq

/-- A layer after `Model._recalculate` has run: both `abc` and `r` are present. -/
structure Layer where
  abc : ℚ × ℚ × ℚ
  r : ℚ
  density : ℚ
deriving DecidableEq

/-- Python exceptions raised by the embedded code. -/
inductive PyErr where
  | valueError (msg : String)
  | assertionError
deriving DecidableEq

/-- A `Model` value after construction (`__init__` has run `_recalculate`):
angular momentum, the recalculated layer list, and the optional output fields
(`self.get(field, 0.0)` is modelled by `Option.getD · 0`). -/
structure Model where
  angular_momentum : ℚ
  layers : List Layer
  rel_equipotential_err : Option ℚ := none
  total_energy : Option ℚ := none
  angular_velocity : Option ℚ := none
  moment_of_inertia : Option ℚ := none
  potential_energy : Option ℚ := none
  kinetic_energy : Option ℚ := none
  virial_ratio : Option ℚ := none
  padding_sentinel : Option ℚ := none
deriving DecidableEq

/-- The dict passed to the `Model` constructor, before `_recalculate`. -/
structure ModelIn where
  angular_momentum : ℚ
  layers : List LayerIn
  rel_equipotential_err : Option ℚ := none
  total_energy : Option ℚ := none
  angular_velocity : Option ℚ := none
  moment_of_inertia : Option ℚ := none
  potential_energy : Option ℚ := none
  kinetic_energy : Option ℚ := none
  virial_ratio : Option ℚ := none
  padding_sentinel : Option ℚ := none
deriving DecidableEq

/-- `np.isclose(a, b, rtol=1e-8)` with numpy's default absolute tolerance
`atol = 1e-8`:  `abs(a - b) <= atol + rtol * abs(b)`. -/
def npIsClose (a b : ℚ) : Bool :=
  decide (|a - b| ≤ 1 / 100000000 + (1 / 100000000) * |b|)

/-- One iteration of the loop in `Model._recalculate` (Model.py lines 50-62):
a layer with neither `abc` nor `r` is a fatal `ValueError`; `abc` alone fills
`r := np.cbrt(a*b*c)`; `r` alone fills `abc := (r, r, r)`; both present are
checked with `np.isclose(np.cbrt(a*b*c), r, rtol=1e-8)`. -/
def recalcLayer (cbrt : ℚ → ℚ) (l : LayerIn) : Except PyErr Layer :=
  match l.abc with
  | none =>
    match l.r with
    | none => .error (.valueError "Model layer must contain abc or r")
    | some r => .ok ⟨(r, r, r), r, l.density⟩
  | some (a, b, c) =>
    let r0 := cbrt (a * b * c)
    match l.r with
    | none => .ok ⟨(a, b, c), r0, l.density⟩
    | some r =>
      if npIsClose r0 r then .ok ⟨(a, b, c), r, l.density⟩
      else .error (.valueError "If model layer contains both abc and r, they must be consistent")

/-- The full loop of `Model._recalculate`: layers are processed in order and
the first failing layer raises. -/
def recalcLayers (cbrt : ℚ → ℚ) : List LayerIn → Except PyErr (List Layer)
  | [] => .ok []
  | l :: ls =>
    match recalcLayer cbrt l with
    | .error e => .error e
    | .ok l' =>
      match recalcLayers cbrt ls with
      | .error e => .error e
      | .ok ls' => .ok (l' :: ls')

/-- `Model.__init__`: store the dict and run `_recalculate` (which can raise).
There is no check of the layer count anywhere in the constructor. -/
def mkModel (cbrt : ℚ → ℚ) (m : ModelIn) : Except PyErr Model :=
  match recalcLayers cbrt m.layers with
  | .error e => .error e
  | .ok ls =>
    .ok { angular_momentum := m.angular_momentum, layers := ls,
          rel_equipotential_err := m.rel_equipotential_err,
          total_energy := m.total_energy,
          angular_velocity := m.angular_velocity,
          moment_of_inertia := m.moment_of_inertia,
          potential_energy := m.potential_energy,
          kinetic_energy := m.kinetic_energy,
          virial_ratio := m.virial_ratio,
          padding_sentinel := m.padding_sentinel }

/-- The sentinel constant written by `Model.to_struct`
(`3.14159265358979323846`, as the exact literal in the source). -/
def paddingSentinelConst : ℚ := 314159265358979323846 / 100000000000000000000

/-- `struct.pack('ddddd', a, b, c, r, density)` for one occupied layer slot. -/
def packLayer (l : Layer) : List Atom :=
  [.f64 l.abc.1, .f64 l.abc.2.1, .f64 l.abc.2.2, .f64 l.r, .f64 l.density]

/-- The `for i in range(20)` loop of `Model.to_struct`: slot `i` holds
`layers[i]` while `i < len(layers)`, and 40 zero bytes (`b'\x00' * 40`)
afterwards.  The recursion walks the slots consuming the layers in order,
which is exactly what indexing `layers[i]` for increasing `i` does. -/
def packSlots : ℕ → List Layer → List Atom
  | 0, _ => []
  | n + 1, [] => List.replicate 40 Atom.pad ++ packSlots n []
  | n + 1, l :: ls => packLayer l ++ packSlots n ls

/-- `Model.to_struct` (Model.py lines 87-134): header (`struct.pack('dI', ...)`
plus 4 zero pad bytes), 20 layer slots, then `struct.pack('dddddddd', ...)`
with the seven output fields (`self.get(field, 0.0)`) and the sentinel.
Note: the `score` field of `_model_dtype` is never written. -/
def toStruct (m : Model) : List Atom :=
  [Atom.f64 m.angular_momentum, Atom.u32 m.layers.length]
    ++ List.replicate 4 Atom.pad
    ++ packSlots 20 m.layers
    ++ [Atom.f64 (m.rel_equipotential_err.getD 0),
        Atom.f64 (m.total_energy.getD 0),
        Atom.f64 (m.angular_velocity.getD 0),
        Atom.f64 (m.moment_of_inertia.getD 0),
        Atom.f64 (m.potential_energy.getD 0),
        Atom.f64 (m.kinetic_energy.getD 0),
        Atom.f64 (m.virial_ratio.getD 0),
        Atom.f64 paddingSentinelConst]

/-- One record of `Model._layer_dtype` as numpy presents it. -/
structure LayerStruct where
  a : ℚ
  b : ℚ
  c : ℚ
  r : ℚ
  density : ℚ
deriving DecidableEq

/-- One record of `Model._model_dtype` as numpy presents it (the view
`from_struct` receives). -/
structure ModelStruct where
  angular_momentum : ℚ
  num_layers : ℕ
  layers : List LayerStruct
  rel_equipotential_err : ℚ
  total_energy : ℚ
  angular_velocity : ℚ
  moment_of_inertia : ℚ
  potential_energy : ℚ
  kinetic_energy : ℚ
  virial_ratio : ℚ
  padding_sentinel : ℚ
  score : ℚ
deriving DecidableEq

/-- Read one float64 field from a byte stream: either an atomic packed double,
or 8 zero pad bytes, which IEEE-754 decodes as +0.0. -/
def readF64 : List Atom → Option (ℚ × List Atom)
  | .f64 x :: rest => some (x, rest)
  | .pad :: .pad :: .pad :: .pad :: .pad :: .pad :: .pad :: .pad :: rest => some (0, rest)
  | _ => none

/-- Read one uint32 field: an atomic packed unsigned int, or 4 zero pad bytes
(decoding as 0). -/
def readU32 : List Atom → Option (ℕ × List Atom)
  | .u32 n :: rest => some (n, rest)
  | .pad :: .pad :: .pad :: .pad :: rest => some (0, rest)
  | _ => none

/-- Read one `_layer_dtype` record (5 consecutive float64 fields). -/
def readLayerStruct (s : List Atom) : Option (LayerStruct × List Atom) :=
  match readF64 s with
  | none => none
  | some (a, s) =>
  match readF64 s with
  | none => none
  | some (b, s) =>
  match readF64 s with
  | none => none
  | some (c, s) =>
  match readF64 s with
  | none => none
  | some (r, s) =>
  match readF64 s with
  | none => none
  | some (d, s) => some (⟨a, b, c, r, d⟩, s)

/-- Read `n` consecutive `_layer_dtype` records (the `layers` sub-array). -/
def readLayerStructs : ℕ → List Atom → Option (List LayerStruct × List Atom)
  | 0, s => some ([], s)
  | n + 1, s =>
    match readLayerStruct s with
    | none => none
    | some (l, s) =>
      match readLayerStructs n s with
      | none => none
      | some (ls, s) => some (l :: ls, s)

/-- Interpret a byte string as one record of `Model._model_dtype`
(`np.frombuffer(bytes, dtype=Model._model_dtype, count=1)`):  all 13 fields
are read at their fixed offsets; the read fails (numpy raises) if the buffer
is shorter than `itemsize` = 888 bytes. -/
def decodeModelStruct (s : List Atom) : Option ModelStruct :=
  (readF64 s).bind fun (am, s) =>
  (readU32 s).bind fun (nl, s) =>
  (readU32 s).bind fun (_pad, s) =>
  (readLayerStructs 20 s).bind fun (ls, s) =>
  (readF64 s).bind fun (ree, s) =>
  (readF64 s).bind fun (te, s) =>
  (readF64 s).bind fun (av, s) =>
  (readF64 s).bind fun (moi, s) =>
  (readF64 s).bind fun (pe, s) =>
  (readF64 s).bind fun (ke, s) =>
  (readF64 s).bind fun (vr, s) =>
  (readF64 s).bind fun (ps, s) =>
  (readF64 s).bind fun (sc, _) =>
  some ⟨am, nl, ls, ree, te, av, moi, pe, ke, vr, ps, sc⟩

/-- Interpreting a byte string under the 880-byte prefix of `_model_dtype`
(every field except the trailing `score`, which is left 0).  This is the read
that actually matches the 880 bytes `to_struct` produces; it is used to state
the amended round-trip law. -/
def decodeModelStruct880 (s : List Atom) : Option ModelStruct :=
  (readF64 s).bind fun (am, s) =>
  (readU32 s).bind fun (nl, s) =>
  (readU32 s).bind fun (_pad, s) =>
  (readLayerStructs 20 s).bind fun (ls, s) =>
  (readF64 s).bind fun (ree, s) =>
  (readF64 s).bind fun (te, s) =>
  (readF64 s).bind fun (av, s) =>
  (readF64 s).bind fun (moi, s) =>
  (readF64 s).bind fun (pe, s) =>
  (readF64 s).bind fun (ke, s) =>
  (readF64 s).bind fun (vr, s) =>
  (readF64 s).bind fun (ps, _) =>
  some ⟨am, nl, ls, ree, te, av, moi, pe, ke, vr, ps, 0⟩

/-- `Model.from_struct` (Model.py lines 64-85): rebuild the dict from a numpy
record; only `layers[:num_layers]` are kept, and all trailer fields except
`score` are copied in. -/
def from_struct (s : ModelStruct) : Model :=
  { angular_momentum := s.angular_momentum,
    layers := (s.layers.take s.num_layers).map
      (fun l => { abc := (l.a, l.b, l.c), r := l.r, density := l.density }),
    rel_equipotential_err := some s.rel_equipotential_err,
    total_energy := some s.total_energy,
    angular_velocity := some s.angular_velocity,
    moment_of_inertia := some s.moment_of_inertia,
    potential_energy := some s.potential_energy,
    kinetic_energy := some s.kinetic_energy,
    virial_ratio := some s.virial_ratio,
    padding_sentinel := some s.padding_sentinel }

/-- The `LayerStruct` view of a packed `Layer`. -/
def layerToStruct (l : Layer) : LayerStruct :=
  ⟨l.abc.1, l.abc.2.1, l.abc.2.2, l.r, l.density⟩

/-- An all-zero layer record (what 40 zero pad bytes decode to). -/
def zeroLayerStruct : LayerStruct := ⟨0, 0, 0, 0, 0⟩

/-- The layer records obtained by decoding `packSlots n ls`. -/
def slotStructs : ℕ → List Layer → List LayerStruct
  | 0, _ => []
  | n + 1, [] => zeroLayerStruct :: slotStructs n []
  | n + 1, l :: ls => layerToStruct l :: slotStructs n ls

/-- The single-layer example model built in `Model.py`'s `__main__` block
(construction succeeds; `r` is given and `abc` is given, and the model used
here for size theorems is the already-constructed value). -/
def exampleModel1 : Model :=
  { angular_momentum := 2631558685805992 / 1000000000000000,
    layers := [{ abc := (13 / 10, 1105575570700132 / 1000000000000000, 6957740290368712 / 10000000000000000),
                 r := 1, density := 1 }] }

/-- `Except` success test (python: the call returned instead of raising). -/
def exceptOk {α : Type} : Except PyErr α → Bool
  | .ok _ => true
  | .error _ => false

/-! ## compute_harness.py -/

/-- The `dtype` member of a `BufferSpec`: either the python type `np.uint8`
(raw byte buffer), the python type `np.float64`, or an `np.dtype` instance
given by its field table. -/
inductive NpDtype where
  | uint8Type
  | float64Type
  | structured (fields : List (String × ℕ))
deriving DecidableEq

/-- `np.dtype(d).itemsize` for the dtypes that occur. -/
def NpDtype.itemsize : NpDtype → ℕ
  | .uint8Type => 1
  | .float64Type => 8
  | .structured fields => (fields.map Prod.snd).sum

/-- Buffer direction strings "in" / "out" / "inout". -/
inductive BufMode where
  | inMode
  | outMode
  | inoutMode
deriving DecidableEq

/-- `BufferSpec` (compute_harness.py lines 34-61). -/
structure BufferSpec where
  binding : ℕ
  dtype : NpDtype
  count : ℕ
  mode : BufMode
  initialData : Option (List Atom) := none
deriving DecidableEq

/-- `BufferSpec.byte_size` (lines 43-52): for the raw python type `np.uint8`
the count IS the byte size, otherwise `count * np.dtype(dtype).itemsize`. -/
def BufferSpec.byteSize (s : BufferSpec) : ℕ :=
  match s.dtype with
  | .uint8Type => s.count
  | d => s.count * d.itemsize

/-- The size check a supplied payload must satisfy
(`assert spec.initial_data.nbytes == byte_size`, line 161). -/
def BufferSpec.payloadOk (s : BufferSpec) : Bool :=
  match s.initialData with
  | none => true
  | some d => decide (byteLength d = s.byteSize)

/-- `UniformSpec` (lines 64-69).  The value is opaque to the harness logic
(it is only handed to the GL setter), so it is carried uninspected. -/
structure UniformSpec where
  name : String
  value : List ℚ
  uniformType : String
deriving DecidableEq

/-- The type tags accepted by the branch chain of
`GLSLComputeProgram._set_uniform` (lines 186-268), in source order. -/
def supportedUniformTypes : List String :=
  ["1i", "1ui", "1f", "1d",
   "2f", "3f", "4f", "2i", "3i", "4i", "2ui", "3ui", "4ui", "2d", "3d", "4d",
   "1fv", "2fv", "3fv", "4fv", "1iv", "2iv", "3iv", "4iv",
   "1uiv", "2uiv", "3uiv", "4uiv", "1dv", "2dv", "3dv", "4dv",
   "matrix2fv", "matrix3fv", "matrix4fv", "matrix2dv", "matrix3dv", "matrix4dv"]

/-- A uniform descriptor passes `_set_uniform` without raising when its name
has no active location (loc == -1, warning only) or its tag is supported. -/
def uniformOk (uloc : String → Int) (u : UniformSpec) : Bool :=
  decide (uloc u.name = -1) || decide (u.uniformType ∈ supportedUniformTypes)

/-- The GL calls the harness issues, in the order they are issued.  The
constructors correspond one-to-one to the GL calls in compute_harness.py
(`glGenBuffers`, `glBindBuffer ssbo`, `glBufferData`, `glBindBuffer 0`,
`glBindBufferBase`, `glUseProgram`, `glGetUniformLocation`, the `glUniform*`
setter family, the not-found console warning, `glDispatchCompute`,
`glMemoryBarrier`, `glFinish`, `glGetBufferSubData`).  Buffer objects are
identified by their binding index (the `ssbos` dict key). -/
inductive GLEvent where
  | genBuffers (binding : ℕ)
  | bindBuffer (binding : ℕ)
  | bufferData (binding : ℕ) (byteSize : ℕ) (withData : Bool)
  | unbindBuffer
  | bindBufferBase (binding : ℕ)
  | useProgram
  | getUniformLocation (nm : String)
  | uniformSet (nm : String) (tag : String)
  | warnUniformNotFound (nm : String)
  | dispatchCompute (gx gy gz : ℕ)
  | memoryBarrier
  | finish
  | readBuffer (binding : ℕ) (byteSize : ℕ)
deriving DecidableEq

/-- True exactly on `glDispatchCompute` events. -/
def isDispatchEv : GLEvent → Bool
  | .dispatchCompute _ _ _ => true
  | _ => false

/-- True exactly on `glUniform*` setter events. -/
def isUniformSetEv : GLEvent → Bool
  | .uniformSet _ _ => true
  | _ => false

/-- The GL calls `_setup_buffer` / the buffer loop can issue. -/
def isSetupEv : GLEvent → Bool
  | .genBuffers _ => true
  | .bindBuffer _ => true
  | .bufferData _ _ _ => true
  | .unbindBuffer => true
  | .bindBufferBase _ => true
  | _ => false

/-- The GL calls (and the warning) `_set_uniform` can issue. -/
def isUniformPhaseEv : GLEvent → Bool
  | .getUniformLocation _ => true
  | .uniformSet _ _ => true
  | .warnUniformNotFound _ => true
  | _ => false

/-- `GLSLComputeProgram._setup_buffer` (lines 148-174): create the buffer
object if this binding has none yet, bind it, then either upload the payload
(after the size assert) or allocate empty.  Returns the GL calls issued and
either the updated `ssbos` key set or the raised `AssertionError`.  Note the
assert sits after `glGenBuffers`/`glBindBuffer` and before `glBufferData`. -/
def setupBuffer (ssbos : List ℕ) (spec : BufferSpec) :
    List GLEvent × Except PyErr (List ℕ) :=
  let pre : List GLEvent :=
    if spec.binding ∈ ssbos then [GLEvent.bindBuffer spec.binding]
    else [GLEvent.genBuffers spec.binding, GLEvent.bindBuffer spec.binding]
  let ssbos2 := if spec.binding ∈ ssbos then ssbos else ssbos ++ [spec.binding]
  match spec.initialData with
  | some d =>
    if byteLength d = spec.byteSize then
      (pre ++ [GLEvent.bufferData spec.binding spec.byteSize true, GLEvent.unbindBuffer],
       .ok ssbos2)
    else (pre, .error .assertionError)
  | none =>
    (pre ++ [GLEvent.bufferData spec.binding spec.byteSize false, GLEvent.unbindBuffer],
     .ok ssbos2)

/-- The buffer setup loop of `run` (lines 314-316): `_setup_buffer` then
`glBindBufferBase` for each descriptor in order; a raised assert aborts. -/
def setupBuffers (ssbos : List ℕ) : List BufferSpec → List GLEvent × Except PyErr (List ℕ)
  | [] => ([], .ok ssbos)
  | spec :: rest =>
    let sb := setupBuffer ssbos spec
    match sb.2 with
    | .error e => (sb.1, .error e)
    | .ok ssbos2 =>
      let sr := setupBuffers ssbos2 rest
      (sb.1 ++ [GLEvent.bindBufferBase spec.binding] ++ sr.1, sr.2)

/-- `GLSLComputeProgram._set_uniform` (lines 176-271): location lookup first;
`-1` prints a warning and returns (the type tag is never examined); otherwise
the branch chain either issues the one matching `glUniform*` call or falls
through to `raise ValueError(f"Unsupported uniform type: ...")`. -/
def setUniform (uloc : String → Int) (u : UniformSpec) :
    List GLEvent × Except PyErr Unit :=
  if uloc u.name = -1 then
    ([GLEvent.getUniformLocation u.name, GLEvent.warnUniformNotFound u.name], .ok ())
  else if u.uniformType ∈ supportedUniformTypes then
    ([GLEvent.getUniformLocation u.name, GLEvent.uniformSet u.name u.uniformType], .ok ())
  else
    ([GLEvent.getUniformLocation u.name],
     .error (.valueError ("Unsupported uniform type: " ++ u.uniformType)))

/-- The uniform loop of `run` (lines 322-323). -/
def setUniforms (uloc : String → Int) : List UniformSpec → List GLEvent × Except PyErr Unit
  | [] => ([], .ok ())
  | u :: us =>
    let su := setUniform uloc u
    match su.2 with
    | .error e => (su.1, .error e)
    | .ok _ =>
      let sr := setUniforms uloc us
      (su.1 ++ sr.1, sr.2)

instance {ε α : Type} [DecidableEq ε] [DecidableEq α] : DecidableEq (Except ε α) :=
  fun x y =>
    match x, y with
    | .ok a, .ok b =>
      if h : a = b then isTrue (by rw [h]) else isFalse fun hh => h (Except.ok.inj hh)
    | .ok _, .error _ => isFalse fun hh => Except.noConfusion hh
    | .error _, .ok _ => isFalse fun hh => Except.noConfusion hh
    | .error a, .error b =>
      if h : a = b then isTrue (by rw [h]) else isFalse fun hh => h (Except.error.inj hh)

/-- Result of a dispatch: the GL calls issued, and either the raised
exception or the readback list (binding index paired with the byte size
read back, i.e. the shape of the `results` dict). -/
structure RunResult where
  trace : List GLEvent
  result : Except PyErr (List (ℕ × ℕ))
deriving DecidableEq

/-- `GLSLComputeProgram.run` (lines 287-344): set up and bind every buffer,
activate the program, apply every uniform, dispatch
`(num_invocations + local_size_x - 1) // local_size_x` groups on one
dimension, barrier + finish, then read back every "out"/"inout" buffer.
`num_invocations`/`local_size_x` defaulting (`None` arguments) is resolved by
the caller. -/
def GLSLComputeProgram.run (uloc : String → Int) (ssbos : List ℕ)
    (buffers : List BufferSpec) (uniforms : List UniformSpec)
    (numInvocations localSizeX : ℕ) : RunResult :=
  let sb := setupBuffers ssbos buffers
  match sb.2 with
  | .error e => ⟨sb.1, .error e⟩
  | .ok _ =>
    let su := setUniforms uloc uniforms
    match su.2 with
    | .error e => ⟨sb.1 ++ [GLEvent.useProgram] ++ su.1, .error e⟩
    | .ok _ =>
      let gx := (numInvocations + localSizeX - 1) / localSizeX
      let reads := (buffers.filter fun s =>
        s.mode == BufMode.outMode || s.mode == BufMode.inoutMode).map
          fun s => (s.binding, s.byteSize)
      ⟨sb.1 ++ [GLEvent.useProgram] ++ su.1
         ++ [GLEvent.dispatchCompute gx 1 1, GLEvent.memoryBarrier, GLEvent.finish]
         ++ reads.map (fun p => GLEvent.readBuffer p.1 p.2),
       .ok reads⟩

/-! ## The search/reduction driver: Model.explore_variations -/

/-- An all-zero `_model_dtype` record. -/
def zeroModelStruct : ModelStruct := ⟨0, 0, [], 0, 0, 0, 0, 0, 0, 0, 0, 0⟩

/-- What one dispatch of `shader/explore_variations.glsl.c` leaves in the
three output buffers (bindings 1, 2, 3).  The kernel itself is external to
the host code, so its outputs are an abstract parameter of the driver. -/
structure DeviceOutputs where
  raw : List ModelStruct
  wgModels : List ModelStruct
  wgScores : List ℚ
deriving DecidableEq

/-- `np.argmin`: index of the first occurrence of the minimum. -/
def npArgmin : List ℚ → ℕ
  | [] => 0
  | x :: xs =>
    let j := npArgmin xs
    match xs.get? j with
    | none => 0
    | some y => if x ≤ y then 0 else j + 1

/-- `best_score = workgroup_scores[np.argmin(workgroup_scores)]`
(Model.py lines 319-321). -/
def npBestScore (ws : List ℚ) : ℚ := ((ws.get? (npArgmin ws)).getD 0)

/-- The buffer descriptor list of `Model.explore_variations`
(Model.py lines 272-298). -/
def exploreBuffers (m : Model) (numVariants numWorkgroups : ℕ) : List BufferSpec :=
  [{ binding := 0, dtype := .uint8Type, count := byteLength (toStruct m),
     mode := .inMode, initialData := some (toStruct m) },
   { binding := 1, dtype := .structured model_dtype_fields, count := numVariants,
     mode := .outMode },
   { binding := 2, dtype := .structured model_dtype_fields, count := numWorkgroups,
     mode := .outMode },
   { binding := 3, dtype := .float64Type, count := numWorkgroups,
     mode := .outMode }]

/-- The uniform descriptor list of `Model.explore_variations`
(Model.py lines 301-305). -/
def exploreUniforms (numVariants seed : ℕ) (temperature : ℚ) : List UniformSpec :=
  [{ name := "num_variations", value := [(numVariants : ℚ)], uniformType := "1ui" },
   { name := "seed", value := [(seed : ℚ)], uniformType := "1ui" },
   { name := "annealing_temperature", value := [temperature], uniformType := "1d" }]

/-- One call `self.program.run(buffers, uniforms, num_invocations=...)` as the
driver sees it: the device produces the typed output buffers and the call
counter advances by one.  The dispatch itself is modelled at the harness
level by `GLSLComputeProgram.run`. -/
def programRun (device : ℕ → DeviceOutputs) (buffers : List BufferSpec)
    (uniforms : List UniformSpec) (numInvocations : ℕ) (callIdx : ℕ) :
    DeviceOutputs × ℕ :=
  (device callIdx, callIdx + 1)

/-- `Model.explore_variations` (Model.py lines 238-337), host-side logic.
`device` abstracts the external kernel (what each dispatch writes to the
output buffers); `sortImpl` is the in-place `numpy.ndarray.sort(order='score')`
call — theorems about the top-k path instantiate it with `npSortByScore`,
its faithful model.  Returns `(best_model, top_models)` and the number of
`program.run` dispatch calls issued (the source calls `run` at line 308 and
again, identically, at line 312, keeping only the second result). -/
def exploreVariations (device : ℕ → DeviceOutputs)
    (sortImpl : List ModelStruct → List ModelStruct) (m : Model)
    (numVariants : ℕ) (temperature : ℚ) (seed : ℕ) (topK : Option ℕ) :
    (Model × List Model) × ℕ :=
  let top_k := topK.getD 1
  let localSize := 256
  let numWorkgroups := (numVariants + localSize - 1) / localSize
  let buffers := exploreBuffers m numVariants numWorkgroups
  let uniforms := exploreUniforms numVariants seed temperature
  let r0 := programRun device buffers uniforms numVariants 0
  let r1 := programRun device buffers uniforms numVariants r0.2
  let results := r1.1
  let wgModels := results.wgModels
  let wgScores := results.wgScores
  let bestIdx := npArgmin wgScores
  let best_model := from_struct ((wgModels.get? bestIdx).getD zeroModelStruct)
  if 1 < top_k then
    let sorted := sortImpl results.raw
    let top_models := (sorted.take top_k).map from_struct
    ((best_model, top_models), r1.2)
  else
    ((best_model, [best_model]), r1.2)

/-- Records sorted ascending by the `score` field. -/
def scoreSorted (l : List ModelStruct) : Prop :=
  l.Pairwise fun a b => a.score ≤ b.score

instance : DecidableRel (fun a b : ModelStruct => a.score ≤ b.score) :=
  fun a b => inferInstanceAs (Decidable (a.score ≤ b.score))

instance (l : List ModelStruct) : Decidable (scoreSorted l) :=
  List.instDecidablePairwise l

/-- numpy's comparison key for `ndarray.sort(order='score')` on a
`_model_dtype` record: the `order` field (`score`) is compared first, and the
REMAINING fields are still used, in the order in which they come up in the
dtype, to break ties (numpy reorders the field names so `score` leads and
`VOID_compare` then walks all of them).  The `layers` sub-array is compared
elementwise in slot order.  The uint32 fields embed order-faithfully into ℚ.
The `_pad_to_16` filler field, which sits between `num_layers` and `layers`
in the dtype and is not carried by `ModelStruct`, is treated as equal on all
records (it is zero in every host-built record). -/
def npSortKey (s : ModelStruct) : List ℚ :=
  s.score :: s.angular_momentum :: (s.num_layers : ℚ) ::
    ((s.layers.bind fun l => [l.a, l.b, l.c, l.r, l.density])
      ++ [s.rel_equipotential_err, s.total_energy, s.angular_velocity,
          s.moment_of_inertia, s.potential_energy, s.kinetic_energy,
          s.virial_ratio, s.padding_sentinel])

/-- Lexicographic comparison of two key sequences: decide at the first
position where they differ. -/
def keyLe : List ℚ → List ℚ → Bool
  | [], _ => true
  | _ :: _, [] => false
  | x :: xs, y :: ys => if x < y then true else if y < x then false else keyLe xs ys

/-- The total record comparison `numpy.ndarray.sort(order='score')` sorts
by. -/
def npRecLe (a b : ModelStruct) : Prop := keyLe (npSortKey a) (npSortKey b) = true

instance : DecidableRel npRecLe :=
  fun a b => inferInstanceAs (Decidable (keyLe (npSortKey a) (npSortKey b) = true))

/-- `raw_results.sort(order='score')` (Model.py line 331): sort ascending
under `npRecLe`.  Because the comparison examines every field, two records
that compare equal in both directions carry identical field values, so the
sorted result is deterministic and independent of the sorting algorithm —
numpy's default introsort included.  Ties in `score` are broken by the
remaining field contents, never by original index. -/
def npSortByScore (l : List ModelStruct) : List ModelStruct :=
  List.insertionSort npRecLe l

/-- Stable insertion of a record into a score-sorted list: placed before the
first strictly-later element, after all earlier-or-equal ones. -/
def orderedInsertScore (x : ModelStruct) : List ModelStruct → List ModelStruct
  | [] => [x]
  | y :: ys => if x.score ≤ y.score then x :: y :: ys else y :: orderedInsertScore x ys

/-- The sort the spec sentence describes (modelled from the spec words
"stable ascending order; ties broken by original index"): a stable
insertion sort on the score field alone.  It is compared against
`npSortByScore`, the actual behavior of the numpy sort. -/
def stableSortByScore : List ModelStruct → List ModelStruct
  | [] => []
  | x :: xs => orderedInsertScore x (stableSortByScore xs)

/-! ## Concrete inputs used by the closed theorems -/

/-- A two-layer model with one output field already computed (as after one
device round trip writing `total_energy`). -/
def exampleModel2 : Model :=
  { angular_momentum := 4 / 10,
    layers := [{ abc := (1, 1, 1), r := 1, density := 1 },
               { abc := (2, 2, 2), r := 2, density := 21 / 10 }],
    total_energy := some (5 / 2) }

/-- Stand-in for `np.cbrt` on inputs where the cube root is never consulted
(layers supplying only `r` take the branch that never calls it). -/
def cbrtStub : ℚ → ℚ := fun q => q

/-- A layer supplying only the radius. -/
def c3LayerIn : LayerIn := { abc := none, r := some 1, density := 1 }

/-- A constructor argument with 21 layers — one more than the 20 slots of the
record layout. -/
def c3In : ModelIn := { angular_momentum := 1, layers := List.replicate 21 c3LayerIn }

/-- The model value the constructor produces from `c3In`. -/
def c3Model : Model :=
  { angular_momentum := 1,
    layers := List.replicate 21 { abc := (1, 1, 1), r := 1, density := 1 } }

/-- `1 + 2e-8`: a radius ratio just outside the claimed pure-relative
tolerance but inside numpy's absolute-plus-relative tolerance. -/
def c5t : ℚ := 1 + 2 / 100000000

/-- An exact cube root at the probed product (`np.cbrt` returns `c5t` on
`c5t³`); elsewhere irrelevant. -/
def c5cbrt : ℚ → ℚ := fun q => if q = c5t * c5t * c5t then c5t else 0

/-- The layer `abc = (c5t, c5t, c5t)`, `r = 1`. -/
def c5LayerIn : LayerIn := { abc := some (c5t, c5t, c5t), r := some 1, density := 1 }

/-- Two device records with EQUAL score 1 but different `total_energy`. -/
def c4A : ModelStruct := ⟨0, 0, [], 0, 10, 0, 0, 0, 0, 0, 0, 1⟩

/-- See `c4A`. -/
def c4B : ModelStruct := ⟨0, 0, [], 0, 20, 0, 0, 0, 0, 0, 0, 1⟩

/-- A raw output buffer holding `[c4A, c4B]`. -/
def c4raw : List ModelStruct := [c4A, c4B]

/-- The same two tied records in the opposite original order: `c4B`
(total_energy 20) before `c4A` (total_energy 10).  A stable
ties-by-original-index sort keeps this order; numpy's remaining-field
tie-break reverses it. -/
def c4rawSwapped : List ModelStruct := [c4B, c4A]

/-- A device giving raw records `c4raw`, per-group best `c4A`, group score 1. -/
def c4dev : ℕ → DeviceOutputs := fun _ => ⟨c4raw, [c4A], [1]⟩

/-- An input descriptor whose payload is 3 bytes but whose allocation size is
4 bytes. -/
def c7spec : BufferSpec :=
  { binding := 0, dtype := .uint8Type, count := 4, mode := .inMode,
    initialData := some [Atom.pad, Atom.pad, Atom.pad] }

/-- A uniform descriptor with an unknown type tag. -/
def c8uniform : UniformSpec := { name := "mystery_knob", value := [], uniformType := "9z" }

/-- Another uniform descriptor with an unknown type tag. -/
def c10uniform : UniformSpec := { name := "unused_knob", value := [2], uniformType := "7q" }

end Tuyok

namespace Tuyok

theorem byteLength_append (a b : List Atom) :
    byteLength (a ++ b) = byteLength a + byteLength b := by
  simp [byteLength]

theorem byteLength_packLayer (l : Layer) : byteLength (packLayer l) = 40 := by
  simp [packLayer, byteLength, Atom.size]

theorem byteLength_packSlots (n : ℕ) (ls : List Layer) :
    byteLength (packSlots n ls) = 40 * n := by
  induction n generalizing ls with
  | zero => simp [packSlots, byteLength]
  | succ n ih =>
    cases ls with
    | nil =>
      rw [packSlots, byteLength_append, ih]
      simp [byteLength, List.map_replicate, Atom.size]
      ring
    | cons l ls =>
      rw [packSlots, byteLength_append, ih, byteLength_packLayer]
      ring

/-- Every serialized record has exactly 880 bytes, independent of the model. -/
theorem byteLength_toStruct (m : Model) : byteLength (toStruct m) = 880 := by
  simp only [toStruct, byteLength_append, byteLength_packSlots]
  simp [byteLength, List.map_replicate, Atom.size]

theorem readLayerStruct_packLayer (l : Layer) (rest : List Atom) :
    readLayerStruct (packLayer l ++ rest) = some (layerToStruct l, rest) := by
  simp [readLayerStruct, packLayer, readF64, layerToStruct, Option.bind]

theorem replicate_forty_pad :
    List.replicate 40 Atom.pad =
      [Atom.pad, .pad, .pad, .pad, .pad, .pad, .pad, .pad,
       .pad, .pad, .pad, .pad, .pad, .pad, .pad, .pad,
       .pad, .pad, .pad, .pad, .pad, .pad, .pad, .pad,
       .pad, .pad, .pad, .pad, .pad, .pad, .pad, .pad,
       .pad, .pad, .pad, .pad, .pad, .pad, .pad, .pad] := by
  decide

theorem readLayerStruct_pad (rest : List Atom) :
    readLayerStruct (List.replicate 40 Atom.pad ++ rest) = some (zeroLayerStruct, rest) := by
  rw [replicate_forty_pad]
  simp [readLayerStruct, readF64, zeroLayerStruct, Option.bind]

theorem readLayerStructs_packSlots (n : ℕ) (ls : List Layer) (rest : List Atom) :
    readLayerStructs n (packSlots n ls ++ rest) = some (slotStructs n ls, rest) := by
  induction n generalizing ls with
  | zero => simp [packSlots, readLayerStructs, slotStructs]
  | succ n ih =>
    cases ls with
    | nil =>
      simp only [packSlots, slotStructs, List.append_assoc, readLayerStructs,
        readLayerStruct_pad, ih]
    | cons l ls =>
      simp only [packSlots, slotStructs, List.append_assoc, readLayerStructs,
        readLayerStruct_packLayer, ih]

/-- The serialized record as an explicit byte stream: header atoms, the 20
slots, then the 8 trailer doubles. -/
theorem toStruct_eq (m : Model) :
    toStruct m =
      Atom.f64 m.angular_momentum :: Atom.u32 m.layers.length ::
      Atom.pad :: Atom.pad :: Atom.pad :: Atom.pad ::
      (packSlots 20 m.layers ++
        [Atom.f64 (m.rel_equipotential_err.getD 0),
         Atom.f64 (m.total_energy.getD 0),
         Atom.f64 (m.angular_velocity.getD 0),
         Atom.f64 (m.moment_of_inertia.getD 0),
         Atom.f64 (m.potential_energy.getD 0),
         Atom.f64 (m.kinetic_energy.getD 0),
         Atom.f64 (m.virial_ratio.getD 0),
         Atom.f64 paddingSentinelConst]) := rfl

/-- What any serialized record decodes to under the 880-byte field prefix of
`_model_dtype`. -/
theorem decodeModelStruct880_toStruct (m : Model) :
    decodeModelStruct880 (toStruct m) =
      some ⟨m.angular_momentum, m.layers.length, slotStructs 20 m.layers,
            m.rel_equipotential_err.getD 0, m.total_energy.getD 0,
            m.angular_velocity.getD 0, m.moment_of_inertia.getD 0,
            m.potential_energy.getD 0, m.kinetic_energy.getD 0,
            m.virial_ratio.getD 0, paddingSentinelConst, 0⟩ := by
  rw [toStruct_eq, decodeModelStruct880]
  simp only [readF64, readU32, Option.bind]
  rw [readLayerStructs_packSlots]

/-- Reading the full `_model_dtype` (including `score`) out of a serialized
record fails for every model: the 880 produced bytes are 8 short of the 888
the dtype requires. -/
theorem decodeModelStruct_toStruct (m : Model) :
    decodeModelStruct (toStruct m) = none := by
  rw [toStruct_eq, decodeModelStruct]
  simp only [readF64, readU32, Option.bind]
  rw [readLayerStructs_packSlots]

theorem slotStructs_eq (n : ℕ) (ls : List Layer) :
    slotStructs n ls =
      (ls.take n).map layerToStruct ++ List.replicate (n - ls.length) zeroLayerStruct := by
  induction n generalizing ls with
  | zero => simp [slotStructs]
  | succ n ih =>
    cases ls with
    | nil => simp [slotStructs, ih, List.replicate]
    | cons l ls => simp [slotStructs, ih, List.take, Nat.succ_sub_succ]

theorem slotStructs_length (n : ℕ) (ls : List Layer) :
    (slotStructs n ls).length = n := by
  induction n generalizing ls with
  | zero => simp [slotStructs]
  | succ n ih => cases ls <;> simp [slotStructs, ih]

theorem layerStruct_roundTrip (l : Layer) :
    ({ abc := ((layerToStruct l).a, (layerToStruct l).b, (layerToStruct l).c),
       r := (layerToStruct l).r, density := (layerToStruct l).density } : Layer) = l := rfl

theorem layers_map_round (ls : List Layer) :
    (ls.map layerToStruct).map
      (fun l => ({ abc := (l.a, l.b, l.c), r := l.r, density := l.density } : Layer)) = ls := by
  induction ls with
  | nil => rfl
  | cons l t ih =>
    simp only [List.map_cons, ih]
    rfl

theorem slotStructs_take (ls : List Layer) (h : ls.length ≤ 20) :
    ((slotStructs 20 ls).take ls.length).map
      (fun l => ({ abc := (l.a, l.b, l.c), r := l.r, density := l.density } : Layer)) = ls := by
  have h1 : ls.take 20 = ls := List.take_of_length_le h
  rw [slotStructs_eq, h1, List.take_append_of_le_length (by simp),
    List.take_of_length_le (by simp), layers_map_round]

/-- C1.  Serialization and deserialization operate on a single fixed record
size K = `Model._model_dtype.itemsize`.  REFUTED AT THE CODE: `to_struct`
writes 880 bytes (header 16 + 20 slots of 40 + 8 trailing doubles), while
`_model_dtype` declares 888 bytes — its trailing `score` field is never
serialized.  The sizes evaluated on the example model of `Model.py`. -/
theorem c1_record_size_mismatch :
    byteLength (toStruct exampleModel1) = 880 ∧
    model_dtype_itemsize = 888 ∧
    byteLength (toStruct exampleModel1) ≠ model_dtype_itemsize := by
  refine ⟨byteLength_toStruct _, by decide, ?_⟩
  rw [byteLength_toStruct]
  decide

/-- C2 counterexample.  The round trip as claimed — reading the serialized
record back under `Model._model_dtype` — cannot even start: the 888-byte read
fails on the 880-byte record (`diagnose_struct.py` performs exactly this
`np.frombuffer(..., dtype=Model._model_dtype, count=1)` call). -/
theorem c2_full_dtype_read_fails :
    decodeModelStruct (toStruct exampleModel1) = none :=
  decodeModelStruct_toStruct exampleModel1

/-- C2 (amended).  Reading the serialized record back under the 880-byte
field prefix of `_model_dtype` (every field but `score`) and applying
`from_struct` reproduces the angular momentum, every layer's a, b, c, r,
density and the exact integer layer count; output fields come back as their
serialized values — 0.0 when they had not been computed — and
`padding_sentinel` comes back as the sentinel constant π. -/
theorem c2_round_trip (m : Model) (h : m.layers.length ≤ 20) :
    (decodeModelStruct880 (toStruct m)).map from_struct =
      some { angular_momentum := m.angular_momentum,
             layers := m.layers,
             rel_equipotential_err := some (m.rel_equipotential_err.getD 0),
             total_energy := some (m.total_energy.getD 0),
             angular_velocity := some (m.angular_velocity.getD 0),
             moment_of_inertia := some (m.moment_of_inertia.getD 0),
             potential_energy := some (m.potential_energy.getD 0),
             kinetic_energy := some (m.kinetic_energy.getD 0),
             virial_ratio := some (m.virial_ratio.getD 0),
             padding_sentinel := some paddingSentinelConst } := by
  rw [decodeModelStruct880_toStruct]
  refine congrArg some ?_
  have hl := slotStructs_take m.layers h
  simp [from_struct, hl]

/-- C2 witness: the amended round trip evaluated on the two-layer example. -/
theorem c2_round_trip_witness :
    exampleModel2.layers.length ≤ 20 ∧
    (decodeModelStruct880 (toStruct exampleModel2)).map from_struct =
      some { angular_momentum := exampleModel2.angular_momentum,
             layers := exampleModel2.layers,
             rel_equipotential_err := some (exampleModel2.rel_equipotential_err.getD 0),
             total_energy := some (exampleModel2.total_energy.getD 0),
             angular_velocity := some (exampleModel2.angular_velocity.getD 0),
             moment_of_inertia := some (exampleModel2.moment_of_inertia.getD 0),
             potential_energy := some (exampleModel2.potential_energy.getD 0),
             kinetic_energy := some (exampleModel2.kinetic_energy.getD 0),
             virial_ratio := some (exampleModel2.virial_ratio.getD 0),
             padding_sentinel := some paddingSentinelConst } :=
  ⟨by decide, c2_round_trip exampleModel2 (by decide)⟩

theorem recalcLayers_ok_iff (cbrt : ℚ → ℚ) (ls : List LayerIn) :
    exceptOk (recalcLayers cbrt ls) = true ↔
      ∀ l ∈ ls, exceptOk (recalcLayer cbrt l) = true := by
  induction ls with
  | nil => simp [recalcLayers, exceptOk]
  | cons l ls ih =>
    cases h1 : recalcLayer cbrt l with
    | error e => simp [recalcLayers, h1, exceptOk]
    | ok l2 =>
      cases h2 : recalcLayers cbrt ls with
      | error e =>
        rw [h2] at ih
        simp only [recalcLayers, h1, h2]
        simp only [exceptOk] at ih ⊢
        simp [← ih, h1, exceptOk]
      | ok ls2 =>
        rw [h2] at ih
        simp only [recalcLayers, h1, h2]
        simp only [exceptOk] at ih ⊢
        simp [h1, exceptOk, ← ih]

theorem mkModel_ok_iff (cbrt : ℚ → ℚ) (mi : ModelIn) :
    exceptOk (mkModel cbrt mi) = true ↔
      exceptOk (recalcLayers cbrt mi.layers) = true := by
  cases h : recalcLayers cbrt mi.layers <;> simp [mkModel, h, exceptOk]

/-- C3 counterexample.  Constructing a `Model` with 21 layers succeeds — no
capacity error anywhere — and its serialized record silently truncates: the
header records 21 layers while the slot region holds only 20 layer records. -/
theorem c3_capacity_not_enforced :
    mkModel cbrtStub c3In = .ok c3Model ∧
    (decodeModelStruct880 (toStruct c3Model)).map (fun s => s.num_layers) = some 21 ∧
    (decodeModelStruct880 (toStruct c3Model)).map (fun s => s.layers.length) = some 20 := by
  refine ⟨by decide, ?_, ?_⟩ <;> rw [decodeModelStruct880_toStruct] <;>
    simp [c3Model, slotStructs_length]

/-- C3 (amended).  There is no capacity check: construction succeeds for ANY
number of layers as soon as every layer passes per-layer shape validation
(21 included, and in particular exactly 20); serialization writes the full
layer count into the header but emits exactly 20 layer slots, so the data of
layers beyond the 20th is silently dropped (the slot region holds the first
`min(20, len)` layers then zero padding). -/
theorem c3_no_capacity_check :
    (∀ (cbrt : ℚ → ℚ) (mi : ModelIn),
        (∀ l ∈ mi.layers, exceptOk (recalcLayer cbrt l) = true) →
        exceptOk (mkModel cbrt mi) = true) ∧
    (∀ m : Model,
        (decodeModelStruct880 (toStruct m)).map (fun s => (s.num_layers, s.layers)) =
          some (m.layers.length, slotStructs 20 m.layers)) ∧
    (∀ (n : ℕ) (ls : List Layer),
        slotStructs n ls =
          (ls.take n).map layerToStruct ++
            List.replicate (n - ls.length) zeroLayerStruct) := by
  refine ⟨?_, ?_, slotStructs_eq⟩
  · intro cbrt mi h
    rw [mkModel_ok_iff, recalcLayers_ok_iff]
    exact h
  · intro m
    rw [decodeModelStruct880_toStruct]
    rfl

/-- C3 witness: the no-capacity-check theorem applied to the 21-layer input. -/
theorem c3_no_capacity_check_witness :
    (∀ l ∈ c3In.layers, exceptOk (recalcLayer cbrtStub l) = true) ∧
    exceptOk (mkModel cbrtStub c3In) = true :=
  ⟨by decide, c3_no_capacity_check.1 cbrtStub c3In (by decide)⟩

/-- C5 counterexample.  With `a = b = c = r·(1 + 2e-8)` and `r = 1` (so the
exact cube root of `a·b·c` is `1 + 2e-8`), the claimed acceptance condition
`abs(cbrt(abc) - r)/r < 1e-8` is FALSE, yet construction SUCCEEDS, because
`np.isclose(..., rtol=1e-8)` keeps numpy's default absolute tolerance
`atol = 1e-8`, accepting any error up to `2e-8` at `r = 1`. -/
theorem c5_tolerance_counterexample :
    c5cbrt (c5t * c5t * c5t) * c5cbrt (c5t * c5t * c5t) * c5cbrt (c5t * c5t * c5t) =
      c5t * c5t * c5t ∧
    exceptOk (recalcLayer c5cbrt c5LayerIn) = true ∧
    ¬ (|c5cbrt (c5t * c5t * c5t) - 1| / 1 < 1 / 100000000) := by
  have h1 : c5cbrt (c5t * c5t * c5t) = c5t := by
    rw [c5cbrt, if_pos rfl]
  have habs : |c5t - 1| = 2 / 100000000 := by
    rw [abs_of_nonneg] <;> norm_num [c5t]
  have h2 : npIsClose c5t 1 = true := by
    rw [npIsClose, decide_eq_true_eq, habs]
    norm_num
  refine ⟨by rw [h1], ?_, ?_⟩
  · simp only [recalcLayer, c5LayerIn, h1, h2, exceptOk, if_true]
  · rw [h1, habs]
    norm_num

/-- C5 (amended).  Full characterization of per-layer validation: a layer
with neither `abc` nor `r` raises a fatal `ValueError`; `r` alone and `abc`
alone are accepted (filling the other field); with both present, construction
succeeds iff `abs(cbrt(a*b*c) - r) <= 1e-8 + 1e-8*abs(r)` — numpy's
absolute-PLUS-relative, non-strict tolerance, not a pure relative one; and a
model construction succeeds iff every one of its layers passes. -/
theorem c5_shape_validation :
    (∀ (cbrt : ℚ → ℚ) (d : ℚ),
        recalcLayer cbrt { abc := none, r := none, density := d } =
          .error (.valueError "Model layer must contain abc or r")) ∧
    (∀ (cbrt : ℚ → ℚ) (r d : ℚ),
        recalcLayer cbrt { abc := none, r := some r, density := d } =
          .ok { abc := (r, r, r), r := r, density := d }) ∧
    (∀ (cbrt : ℚ → ℚ) (a b c d : ℚ),
        recalcLayer cbrt { abc := some (a, b, c), r := none, density := d } =
          .ok { abc := (a, b, c), r := cbrt (a * b * c), density := d }) ∧
    (∀ (cbrt : ℚ → ℚ) (a b c r d : ℚ),
        exceptOk (recalcLayer cbrt { abc := some (a, b, c), r := some r, density := d }) = true
          ↔ |cbrt (a * b * c) - r| ≤ 1 / 100000000 + (1 / 100000000) * |r|) ∧
    (∀ (cbrt : ℚ → ℚ) (mi : ModelIn),
        exceptOk (mkModel cbrt mi) = true ↔
          ∀ l ∈ mi.layers, exceptOk (recalcLayer cbrt l) = true) := by
  refine ⟨fun cbrt d => rfl, fun cbrt r d => rfl, fun cbrt a b c d => rfl, ?_, ?_⟩
  · intro cbrt a b c r d
    have hev : exceptOk (recalcLayer cbrt { abc := some (a, b, c), r := some r, density := d })
        = npIsClose (cbrt (a * b * c)) r := by
      cases h : npIsClose (cbrt (a * b * c)) r <;> simp [recalcLayer, h, exceptOk]
    rw [hev, npIsClose, decide_eq_true_eq]
  · intro cbrt mi
    rw [mkModel_ok_iff, recalcLayers_ok_iff]

/-- C5 witness: the characterization applied to a concrete radius-only
layer. -/
theorem c5_shape_validation_witness :
    recalcLayer cbrtStub { abc := none, r := some 2, density := 3 } =
      .ok { abc := (2, 2, 2), r := 2, density := 3 } :=
  c5_shape_validation.2.1 cbrtStub 2 3

theorem keyLe_total : ∀ (xs ys : List ℚ), keyLe xs ys = true ∨ keyLe ys xs = true := by
  intro xs
  induction xs with
  | nil => intro ys; left; rfl
  | cons x xs ih =>
    intro ys
    cases ys with
    | nil => right; rfl
    | cons y ys =>
      rcases lt_trichotomy x y with h | h | h
      · left; simp [keyLe, h]
      · subst h
        rcases ih ys with h2 | h2
        · left; simp [keyLe, lt_irrefl, h2]
        · right; simp [keyLe, lt_irrefl, h2]
      · right; simp [keyLe, h]

theorem keyLe_trans : ∀ (xs ys zs : List ℚ),
    keyLe xs ys = true → keyLe ys zs = true → keyLe xs zs = true := by
  intro xs
  induction xs with
  | nil => intro ys zs h1 h2; rfl
  | cons x xs ih =>
    intro ys zs h1 h2
    cases ys with
    | nil => exact absurd h1 (by simp [keyLe])
    | cons y ys =>
      cases zs with
      | nil => exact absurd h2 (by simp [keyLe])
      | cons z zs =>
        by_cases hxy : x < y
        · by_cases hyz : y < z
          · simp [keyLe, lt_trans hxy hyz]
          · by_cases hzy : z < y
            · exact absurd h2 (by simp [keyLe, hyz, hzy])
            · simp [keyLe, lt_of_lt_of_le hxy (le_of_not_lt hzy)]
        · by_cases hyx : y < x
          · exact absurd h1 (by simp [keyLe, hxy, hyx])
          · have hxy2 : x = y := le_antisymm (le_of_not_lt hyx) (le_of_not_lt hxy)
            subst hxy2
            have h1s : keyLe xs ys = true := by simpa [keyLe, lt_irrefl] using h1
            by_cases hxz : x < z
            · simp [keyLe, hxz]
            · by_cases hzx : z < x
              · exact absurd h2 (by simp [keyLe, hxz, hzx])
              · have h2s : keyLe ys zs = true := by simpa [keyLe, hxz, hzx] using h2
                simp [keyLe, hxz, hzx, ih ys zs h1s h2s]

theorem npRecLe_score {a b : ModelStruct} (h : npRecLe a b) : a.score ≤ b.score := by
  by_cases h1 : a.score < b.score
  · exact le_of_lt h1
  · by_cases h2 : b.score < a.score
    · exfalso
      have hf : keyLe (npSortKey a) (npSortKey b) = false := by
        simp [npSortKey, keyLe, h1, h2]
      have hT : keyLe (npSortKey a) (npSortKey b) = true := h
      rw [hf] at hT
      exact Bool.noConfusion hT
    · exact le_of_not_lt h2

/-- The modelled numpy sort produces a list pairwise-ordered under the full
record comparison. -/
theorem npSort_pairwise (l : List ModelStruct) :
    List.Pairwise npRecLe (npSortByScore l) := by
  haveI : IsTotal ModelStruct npRecLe := ⟨fun a b => keyLe_total _ _⟩
  haveI : IsTrans ModelStruct npRecLe := ⟨fun a b c => keyLe_trans _ _ _⟩
  exact List.sorted_insertionSort npRecLe l

theorem npSort_sorted_score (l : List ModelStruct) : scoreSorted (npSortByScore l) :=
  (npSort_pairwise l).imp fun h => npRecLe_score h

theorem npSort_perm (l : List ModelStruct) : (npSortByScore l).Perm l :=
  List.perm_insertionSort npRecLe l

/-- C4 counterexample.  On two records with EQUAL scores,
`sort(order='score')` breaks the tie by the remaining dtype fields (here
`total_energy`: 10 before 20), never by original index: sorting
`[c4B, c4A]` yields `[c4A, c4B]`, while the claimed stable
ties-by-original-index order keeps `[c4B, c4A]`.  The claim's description of
the returned order is false on this input. -/
theorem c4_ties_not_broken_by_index :
    npSortByScore c4rawSwapped = [c4A, c4B] ∧
    stableSortByScore c4rawSwapped = [c4B, c4A] ∧
    npSortByScore c4rawSwapped ≠ stableSortByScore c4rawSwapped := by
  decide

/-- C4 (amended).  When top_k > 1 the driver returns exactly the first k
records of the full output sorted ascending by score — with score ties
broken deterministically by the remaining dtype fields in declaration
order (numpy `order=` semantics), not by original index — mapped through
`from_struct`; that sorted list is a score-ascending permutation of the raw
output; and whenever the per-group reduction scores are consistent with the
full output (the reduction's best score is a lower bound of all record
scores and is attained by some record), a record achieving that globally
best score is present in the returned top-k slice. -/
theorem c4_topk_contains_best (device : ℕ → DeviceOutputs) (m : Model)
    (numVariants : ℕ) (temperature : ℚ) (seed : ℕ) (k : ℕ)
    (hk : 1 < k)
    (hlow : ∀ s ∈ (device 1).raw, npBestScore (device 1).wgScores ≤ s.score)
    (hatt : ∃ s ∈ (device 1).raw, s.score = npBestScore (device 1).wgScores) :
    ((exploreVariations device npSortByScore m numVariants temperature seed (some k)).1.2 =
        ((npSortByScore (device 1).raw).take k).map from_struct) ∧
    (npSortByScore (device 1).raw).Perm (device 1).raw ∧
    scoreSorted (npSortByScore (device 1).raw) ∧
    ∃ s ∈ (npSortByScore (device 1).raw).take k,
      s.score = npBestScore (device 1).wgScores ∧
      from_struct s ∈
        (exploreVariations device npSortByScore m numVariants temperature seed (some k)).1.2 := by
  have hperm : (npSortByScore (device 1).raw).Perm (device 1).raw :=
    npSort_perm (device 1).raw
  have hsorted : scoreSorted (npSortByScore (device 1).raw) :=
    npSort_sorted_score (device 1).raw
  have hres : (exploreVariations device npSortByScore m numVariants temperature seed
        (some k)).1.2
      = ((npSortByScore (device 1).raw).take k).map from_struct := by
    simp [exploreVariations, programRun, hk]
  refine ⟨hres, hperm, hsorted, ?_⟩
  obtain ⟨s0, hs0mem, hs0eq⟩ := hatt
  have hs0out : s0 ∈ npSortByScore (device 1).raw := hperm.mem_iff.mpr hs0mem
  cases hocases : npSortByScore (device 1).raw with
  | nil => rw [hocases] at hs0out; exact absurd hs0out (List.not_mem_nil s0)
  | cons hd tl =>
    have hhd_raw : hd ∈ (device 1).raw :=
      hperm.subset (by rw [hocases]; exact List.mem_cons_self hd tl)
    have hle1 : npBestScore (device 1).wgScores ≤ hd.score := hlow hd hhd_raw
    have hle2 : hd.score ≤ s0.score := by
      rw [hocases] at hs0out hsorted
      rcases List.mem_cons.mp hs0out with h | h
      · rw [h]
      · exact (List.pairwise_cons.mp hsorted).1 s0 h
    have hscore : hd.score = npBestScore (device 1).wgScores :=
      le_antisymm (hs0eq ▸ hle2) hle1
    have hmemtake : hd ∈ List.take k (hd :: tl) := by
      cases k with
      | zero => exact absurd hk (by norm_num)
      | succ k2 => exact List.mem_cons_self hd (tl.take k2)
    refine ⟨hd, hmemtake, hscore, ?_⟩
    rw [hres, hocases]
    exact List.mem_map_of_mem from_struct hmemtake

/-- C4 witness: the amended top-k theorem applied to a concrete device
output with two tied records and a consistent per-group reduction. -/
theorem c4_topk_contains_best_witness :
    (1 < 2) ∧
    (∀ s ∈ (c4dev 1).raw, npBestScore (c4dev 1).wgScores ≤ s.score) ∧
    (∃ s ∈ (c4dev 1).raw, s.score = npBestScore (c4dev 1).wgScores) ∧
    (((exploreVariations c4dev npSortByScore exampleModel1 2 0 12345 (some 2)).1.2 =
        ((npSortByScore (c4dev 1).raw).take 2).map from_struct) ∧
      (npSortByScore (c4dev 1).raw).Perm (c4dev 1).raw ∧
      scoreSorted (npSortByScore (c4dev 1).raw) ∧
      ∃ s ∈ (npSortByScore (c4dev 1).raw).take 2,
        s.score = npBestScore (c4dev 1).wgScores ∧
        from_struct s ∈
          (exploreVariations c4dev npSortByScore exampleModel1 2 0 12345 (some 2)).1.2) :=
  ⟨by norm_num, by decide, by decide,
    c4_topk_contains_best c4dev exampleModel1 2 0 12345 2 (by norm_num)
      (by decide) (by decide)⟩

/-- C6.  Every call to `Model.explore_variations` issues exactly TWO
identical dispatches, not one: `self.program.run(...)` appears at Model.py
line 308 (timed) and verbatim again at line 312, whose result replaces the
first.  The spec's single-dispatch contract is violated by the duplicated
call. -/
theorem c6_two_dispatches_per_explore (device : ℕ → DeviceOutputs)
    (sortImpl : List ModelStruct → List ModelStruct) (m : Model)
    (numVariants : ℕ) (temperature : ℚ) (seed : ℕ) (topK : Option ℕ) :
    (exploreVariations device sortImpl m numVariants temperature seed topK).2 = 2 := by
  simp only [exploreVariations, programRun]
  split <;> rfl

theorem not_mem_of_all {l : List GLEvent} {p : GLEvent → Bool}
    (h : l.all p = true) (e : GLEvent) (he : p e = false) : e ∉ l := by
  intro hm
  have h2 := List.all_eq_true.mp h e hm
  rw [he] at h2
  exact Bool.noConfusion h2

theorem filter_nil_of_all {l : List GLEvent} {p q : GLEvent → Bool}
    (h : l.all p = true) (hpq : ∀ e, p e = true → q e = false) : l.filter q = [] := by
  rw [List.filter_eq_nil]
  intro e he
  rw [hpq e (List.all_eq_true.mp h e he)]
  exact Bool.false_ne_true

theorem setup_not_dispatch : ∀ e, isSetupEv e = true → isDispatchEv e = false := by
  intro e h
  cases e <;> simp [isSetupEv, isDispatchEv] at *

theorem uniformPhase_not_dispatch : ∀ e, isUniformPhaseEv e = true → isDispatchEv e = false := by
  intro e h
  cases e <;> simp [isUniformPhaseEv, isDispatchEv] at *

theorem setupBuffer_snd_ok (ss : List ℕ) (s : BufferSpec) (h : s.payloadOk = true) :
    (setupBuffer ss s).2 = .ok (if s.binding ∈ ss then ss else ss ++ [s.binding]) := by
  cases hd : s.initialData with
  | none => simp [setupBuffer, hd]
  | some d =>
    have hbl : byteLength d = s.byteSize := by
      have h2 := h
      simp only [BufferSpec.payloadOk, hd, decide_eq_true_eq] at h2
      exact h2
    simp [setupBuffer, hd, hbl]

theorem setupBuffer_snd_fail (ss : List ℕ) (s : BufferSpec) (h : s.payloadOk = false) :
    (setupBuffer ss s).2 = .error .assertionError := by
  cases hd : s.initialData with
  | none => simp [BufferSpec.payloadOk, hd] at h
  | some d =>
    have hbl : ¬ (byteLength d = s.byteSize) := by
      simp only [BufferSpec.payloadOk, hd] at h
      exact of_decide_eq_false h
    simp [setupBuffer, hd, hbl]

theorem setupBuffer_all_setup (ss : List ℕ) (s : BufferSpec) :
    ((setupBuffer ss s).1).all isSetupEv = true := by
  cases hd : s.initialData with
  | none =>
    by_cases hb : s.binding ∈ ss <;> simp [setupBuffer, hd, hb, isSetupEv]
  | some d =>
    by_cases hs2 : byteLength d = s.byteSize <;> by_cases hb : s.binding ∈ ss <;>
      simp [setupBuffer, hd, hb, hs2, isSetupEv]

theorem setupBuffers_snd_ok : ∀ (bs : List BufferSpec) (ss : List ℕ),
    (∀ s ∈ bs, s.payloadOk = true) → ∃ ss2, (setupBuffers ss bs).2 = .ok ss2 := by
  intro bs
  induction bs with
  | nil => exact fun ss _ => ⟨ss, rfl⟩
  | cons spec rest ih =>
    intro ss h
    have h1 := setupBuffer_snd_ok ss spec (h spec (List.mem_cons_self _ _))
    obtain ⟨ss3, h3⟩ := ih (if spec.binding ∈ ss then ss else ss ++ [spec.binding])
      (fun s hs => h s (List.mem_cons_of_mem _ hs))
    refine ⟨ss3, ?_⟩
    simp only [setupBuffers]
    rw [h1]
    exact h3

theorem setupBuffers_snd_fail : ∀ (bs : List BufferSpec) (ss : List ℕ),
    (∃ s ∈ bs, s.payloadOk = false) →
    (setupBuffers ss bs).2 = .error .assertionError := by
  intro bs
  induction bs with
  | nil =>
    intro ss h
    obtain ⟨s, hs, _⟩ := h
    exact absurd hs (List.not_mem_nil s)
  | cons spec rest ih =>
    intro ss h
    by_cases hp : spec.payloadOk = true
    · have hbad : ∃ s ∈ rest, s.payloadOk = false := by
        obtain ⟨s, hs, hsp⟩ := h
        rcases List.mem_cons.mp hs with rfl | hs2
        · rw [hp] at hsp; exact absurd hsp (by decide)
        · exact ⟨s, hs2, hsp⟩
      have h1 := setupBuffer_snd_ok ss spec hp
      simp only [setupBuffers]
      rw [h1]
      exact ih _ hbad
    · have hp2 : spec.payloadOk = false := by
        cases hq : spec.payloadOk
        · rfl
        · exact absurd hq hp
      have h1 := setupBuffer_snd_fail ss spec hp2
      simp only [setupBuffers]
      rw [h1]

theorem setupBuffers_all_setup : ∀ (bs : List BufferSpec) (ss : List ℕ),
    ((setupBuffers ss bs).1).all isSetupEv = true := by
  intro bs
  induction bs with
  | nil => intro ss; rfl
  | cons spec rest ih =>
    intro ss
    simp only [setupBuffers]
    cases h2 : (setupBuffer ss spec).2 with
    | error e => exact setupBuffer_all_setup ss spec
    | ok ss2 =>
      simp only [List.all_append, List.all_cons, List.all_nil, Bool.and_true,
        Bool.and_eq_true]
      exact ⟨⟨setupBuffer_all_setup ss spec, rfl⟩, ih ss2⟩

theorem setUniform_snd_ok (uloc : String → Int) (u : UniformSpec)
    (h : uniformOk uloc u = true) : (setUniform uloc u).2 = .ok () := by
  by_cases h1 : uloc u.name = -1
  · simp [setUniform, h1]
  · have h2 : u.uniformType ∈ supportedUniformTypes := by
      simp only [uniformOk, Bool.or_eq_true, decide_eq_true_eq] at h
      rcases h with h | h
      · exact absurd h h1
      · exact h
    simp [setUniform, h1, h2]

theorem setUniform_all_uniform (uloc : String → Int) (u : UniformSpec) :
    ((setUniform uloc u).1).all isUniformPhaseEv = true := by
  by_cases h1 : uloc u.name = -1 <;> by_cases h2 : u.uniformType ∈ supportedUniformTypes <;>
    simp [setUniform, h1, h2, isUniformPhaseEv]

theorem setUniforms_snd_ok (uloc : String → Int) : ∀ (us : List UniformSpec),
    (∀ u ∈ us, uniformOk uloc u = true) → (setUniforms uloc us).2 = .ok () := by
  intro us
  induction us with
  | nil => intro _; rfl
  | cons u rest ih =>
    intro h
    have h1 := setUniform_snd_ok uloc u (h u (List.mem_cons_self _ _))
    simp only [setUniforms]
    rw [h1]
    exact ih (fun v hv => h v (List.mem_cons_of_mem _ hv))

theorem setUniforms_snd_fail (uloc : String → Int) : ∀ (us : List UniformSpec),
    (∃ u ∈ us, uloc u.name ≠ -1 ∧ u.uniformType ∉ supportedUniformTypes) →
    ∃ msg, (setUniforms uloc us).2 = .error (.valueError msg) := by
  intro us
  induction us with
  | nil =>
    intro h
    obtain ⟨u, hu, _⟩ := h
    exact absurd hu (List.not_mem_nil u)
  | cons u rest ih =>
    intro h
    by_cases hok : uniformOk uloc u = true
    · have hbad : ∃ v ∈ rest, uloc v.name ≠ -1 ∧ v.uniformType ∉ supportedUniformTypes := by
        obtain ⟨v, hv, hvl, hvt⟩ := h
        rcases List.mem_cons.mp hv with rfl | hv2
        · exfalso
          simp only [uniformOk, Bool.or_eq_true, decide_eq_true_eq] at hok
          rcases hok with hc | hc
          · exact hvl hc
          · exact hvt hc
        · exact ⟨v, hv2, hvl, hvt⟩
      obtain ⟨msg, hmsg⟩ := ih hbad
      refine ⟨msg, ?_⟩
      simp only [setUniforms]
      rw [setUniform_snd_ok uloc u hok]
      exact hmsg
    · have hcc : ¬ (uloc u.name = -1) ∧ u.uniformType ∉ supportedUniformTypes := by
        simp only [uniformOk, Bool.or_eq_true, decide_eq_true_eq, not_or] at hok
        exact hok
      refine ⟨"Unsupported uniform type: " ++ u.uniformType, ?_⟩
      simp only [setUniforms, setUniform, hcc.1, hcc.2, if_false, ite_false]

theorem setUniforms_all_uniform (uloc : String → Int) : ∀ (us : List UniformSpec),
    ((setUniforms uloc us).1).all isUniformPhaseEv = true := by
  intro us
  induction us with
  | nil => rfl
  | cons u rest ih =>
    simp only [setUniforms]
    cases h2 : (setUniform uloc u).2 with
    | error e => exact setUniform_all_uniform uloc u
    | ok v =>
      simp only [List.all_append, Bool.and_eq_true]
      exact ⟨setUniform_all_uniform uloc u, ih⟩

theorem setUniforms_allNotFound (uloc : String → Int) : ∀ (us : List UniformSpec),
    (∀ u ∈ us, uloc u.name = -1) →
    setUniforms uloc us =
      (us.bind (fun u => [GLEvent.getUniformLocation u.name,
                          GLEvent.warnUniformNotFound u.name]), .ok ()) := by
  intro us
  induction us with
  | nil => intro _; rfl
  | cons u rest ih =>
    intro h
    have h1 : uloc u.name = -1 := h u (List.mem_cons_self _ _)
    have h2 := ih (fun v hv => h v (List.mem_cons_of_mem _ hv))
    simp only [setUniforms, setUniform, h1, if_pos, List.cons_bind, h2]

/-- `(N + g - 1) / g` in natural division IS the ceiling of N/g. -/
theorem groupCount_eq_ceil (N g : ℕ) (hg : 1 ≤ g) :
    (((N + g - 1) / g : ℕ) : ℤ) = ⌈(N : ℚ) / (g : ℚ)⌉ := by
  have hg0 : 0 < g := hg
  set q := (N + g - 1) / g with hq
  have h1 : q * g ≤ N + g - 1 := Nat.div_mul_le_self _ _
  have h2 : N + g - 1 < (q + 1) * g := by
    rw [hq, ← Nat.div_lt_iff_lt_mul hg0]
    exact Nat.lt_succ_self _
  rw [Nat.succ_mul] at h2
  have h3 : N ≤ q * g := by omega
  have h4 : q * g < N + g := by omega
  have hgq : (0 : ℚ) < (g : ℚ) := by exact_mod_cast hg0
  symm
  rw [Int.ceil_eq_iff]
  constructor
  · push_cast
    rw [lt_div_iff hgq]
    have h4q : (q : ℚ) * g < (N : ℚ) + g := by exact_mod_cast h4
    nlinarith
  · push_cast
    rw [div_le_iff hgq]
    exact_mod_cast h3

theorem readback_filter_dispatch (rs : List (ℕ × ℕ)) :
    (rs.map fun p => GLEvent.readBuffer p.1 p.2).filter isDispatchEv = [] := by
  induction rs with
  | nil => rfl
  | cons p rest ih => simp [isDispatchEv, ih]

/-- C7 counterexample.  A descriptor with a 3-byte payload against a 4-byte
allocation is rejected with the assertion error, but NOT before any device
call: `glGenBuffers` and `glBindBuffer` for that buffer have already been
issued when the assert fires. -/
theorem c7_device_calls_before_rejection :
    (GLSLComputeProgram.run (fun _ => -1) [] [c7spec] [] 1 256).result =
      .error .assertionError ∧
    GLEvent.genBuffers 0 ∈ (GLSLComputeProgram.run (fun _ => -1) [] [c7spec] [] 1 256).trace ∧
    GLEvent.bindBuffer 0 ∈ (GLSLComputeProgram.run (fun _ => -1) [] [c7spec] [] 1 256).trace := by
  decide

/-- C7 (amended).  If any descriptor carries a payload whose byte length
differs from the computed allocation size, the dispatch fails fatally with an
`AssertionError`, raised during buffer setup: before the program is
activated (`glUseProgram` never happens) and before any compute dispatch is
issued — but after the failing buffer's create/bind calls. -/
theorem c7_payload_size_validation (uloc : String → Int) (ssbos : List ℕ)
    (buffers : List BufferSpec) (uniforms : List UniformSpec) (N g : ℕ)
    (hbad : ∃ s ∈ buffers, s.payloadOk = false) :
    (GLSLComputeProgram.run uloc ssbos buffers uniforms N g).result =
      .error .assertionError ∧
    GLEvent.useProgram ∉ (GLSLComputeProgram.run uloc ssbos buffers uniforms N g).trace ∧
    ∀ gx gy gz, GLEvent.dispatchCompute gx gy gz ∉
      (GLSLComputeProgram.run uloc ssbos buffers uniforms N g).trace := by
  have hB := setupBuffers_snd_fail buffers ssbos hbad
  have hall := setupBuffers_all_setup buffers ssbos
  have hrun : GLSLComputeProgram.run uloc ssbos buffers uniforms N g =
      ⟨(setupBuffers ssbos buffers).1, .error .assertionError⟩ := by
    simp only [GLSLComputeProgram.run, hB]
  rw [hrun]
  refine ⟨rfl, ?_, ?_⟩
  · exact not_mem_of_all hall GLEvent.useProgram rfl
  · intro gx gy gz
    exact not_mem_of_all hall _ rfl

/-- C7 witness: the validation theorem applied at the concrete mismatched
descriptor. -/
theorem c7_payload_size_validation_witness :
    (∃ s ∈ [c7spec], s.payloadOk = false) ∧
    ((GLSLComputeProgram.run (fun _ => 0) [] [c7spec] [] 4 256).result =
        .error .assertionError ∧
      GLEvent.useProgram ∉ (GLSLComputeProgram.run (fun _ => 0) [] [c7spec] [] 4 256).trace ∧
      ∀ gx gy gz, GLEvent.dispatchCompute gx gy gz ∉
        (GLSLComputeProgram.run (fun _ => 0) [] [c7spec] [] 4 256).trace) :=
  ⟨by decide, c7_payload_size_validation (fun _ => 0) [] [c7spec] [] 4 256 (by decide)⟩

/-- C8 counterexample.  A uniform descriptor with the unsupported type tag
"9z" whose name has NO active location does not raise at all: the dispatch
completes (`.ok`) and only the console warning is recorded — so the fatal
configuration error is not raised "regardless of the uniform's name". -/
theorem c8_unknown_tag_not_found_passes :
    (GLSLComputeProgram.run (fun _ => -1) [] [] [c8uniform] 5 256).result = .ok [] ∧
    GLEvent.warnUniformNotFound "mystery_knob" ∈
      (GLSLComputeProgram.run (fun _ => -1) [] [] [c8uniform] 5 256).trace := by
  decide

/-- C8 (amended).  A uniform descriptor whose name RESOLVES to an active
location and whose type tag is unsupported causes a fatal `ValueError`
(after buffer setup and program activation) and no compute dispatch is ever
issued; descriptors whose names do not resolve are skipped with a warning
and their tag is never validated. -/
theorem c8_unknown_uniform_tag (uloc : String → Int) (ssbos : List ℕ)
    (buffers : List BufferSpec) (uniforms : List UniformSpec) (N g : ℕ)
    (hb : ∀ s ∈ buffers, s.payloadOk = true)
    (hbad : ∃ u ∈ uniforms, uloc u.name ≠ -1 ∧ u.uniformType ∉ supportedUniformTypes) :
    (∃ msg, (GLSLComputeProgram.run uloc ssbos buffers uniforms N g).result =
      .error (.valueError msg)) ∧
    ∀ gx gy gz, GLEvent.dispatchCompute gx gy gz ∉
      (GLSLComputeProgram.run uloc ssbos buffers uniforms N g).trace := by
  obtain ⟨ss2, hB⟩ := setupBuffers_snd_ok buffers ssbos hb
  obtain ⟨msg, hU⟩ := setUniforms_snd_fail uloc uniforms hbad
  have hrun : GLSLComputeProgram.run uloc ssbos buffers uniforms N g =
      ⟨(setupBuffers ssbos buffers).1 ++ [GLEvent.useProgram] ++ (setUniforms uloc uniforms).1,
        .error (.valueError msg)⟩ := by
    simp only [GLSLComputeProgram.run, hB, hU]
  rw [hrun]
  refine ⟨⟨msg, rfl⟩, ?_⟩
  intro gx gy gz
  simp only [List.mem_append, not_or]
  refine ⟨⟨?_, ?_⟩, ?_⟩
  · exact not_mem_of_all (setupBuffers_all_setup buffers ssbos) _ rfl
  · simp
  · exact not_mem_of_all (setUniforms_all_uniform uloc uniforms) _ rfl

/-- C8 witness: the amended theorem at a concrete resolvable name with the
unknown tag "9z". -/
theorem c8_unknown_uniform_tag_witness :
    (∀ s ∈ ([] : List BufferSpec), s.payloadOk = true) ∧
    (∃ u ∈ [c8uniform], (fun _ : String => (0 : Int)) u.name ≠ -1 ∧
      u.uniformType ∉ supportedUniformTypes) ∧
    ((∃ msg, (GLSLComputeProgram.run (fun _ => 0) [] [] [c8uniform] 5 256).result =
        .error (.valueError msg)) ∧
      ∀ gx gy gz, GLEvent.dispatchCompute gx gy gz ∉
        (GLSLComputeProgram.run (fun _ => 0) [] [] [c8uniform] 5 256).trace) :=
  ⟨by decide, by decide,
    c8_unknown_uniform_tag (fun _ => 0) [] [] [c8uniform] 5 256 (by decide) (by decide)⟩

/-- C9.  For every dispatch with all descriptors valid, exactly one
`glDispatchCompute` is issued, along a single dimension, with group count
`(N + group_size - 1) // group_size`, which equals `ceil(N / group_size)`
exactly. -/
theorem c9_group_sizing (uloc : String → Int) (ssbos : List ℕ)
    (buffers : List BufferSpec) (uniforms : List UniformSpec) (N g : ℕ)
    (hN : 1 ≤ N) (hg : 1 ≤ g)
    (hb : ∀ s ∈ buffers, s.payloadOk = true)
    (hu : ∀ u ∈ uniforms, uniformOk uloc u = true) :
    ((GLSLComputeProgram.run uloc ssbos buffers uniforms N g).trace.filter isDispatchEv
        = [GLEvent.dispatchCompute ((N + g - 1) / g) 1 1]) ∧
    (((N + g - 1) / g : ℕ) : ℤ) = ⌈(N : ℚ) / (g : ℚ)⌉ := by
  obtain ⟨ss2, hB⟩ := setupBuffers_snd_ok buffers ssbos hb
  have hU := setUniforms_snd_ok uloc uniforms hu
  have hrun : GLSLComputeProgram.run uloc ssbos buffers uniforms N g =
      ⟨(setupBuffers ssbos buffers).1 ++ [GLEvent.useProgram] ++ (setUniforms uloc uniforms).1
         ++ [GLEvent.dispatchCompute ((N + g - 1) / g) 1 1, GLEvent.memoryBarrier,
             GLEvent.finish]
         ++ ((buffers.filter fun s =>
              s.mode == BufMode.outMode || s.mode == BufMode.inoutMode).map
                fun s => (s.binding, s.byteSize)).map (fun p => GLEvent.readBuffer p.1 p.2),
        .ok ((buffers.filter fun s =>
              s.mode == BufMode.outMode || s.mode == BufMode.inoutMode).map
                fun s => (s.binding, s.byteSize))⟩ := by
    simp only [GLSLComputeProgram.run, hB, hU]
  rw [hrun]
  constructor
  · simp only [List.filter_append]
    rw [filter_nil_of_all (setupBuffers_all_setup buffers ssbos) setup_not_dispatch,
      filter_nil_of_all (setUniforms_all_uniform uloc uniforms) uniformPhase_not_dispatch,
      readback_filter_dispatch]
    simp [isDispatchEv]
  · exact groupCount_eq_ceil N g hg

/-- C9 witness: N = 1000, group size 256 gives exactly 4 groups
(the spec example). -/
theorem c9_group_sizing_witness :
    (1 ≤ 1000) ∧ (1 ≤ 256) ∧
    (∀ s ∈ ([] : List BufferSpec), s.payloadOk = true) ∧
    (∀ u ∈ ([] : List UniformSpec), uniformOk (fun _ => -1) u = true) ∧
    ((1000 + 256 - 1) / 256 = 4) ∧
    (((GLSLComputeProgram.run (fun _ => -1) [] [] [] 1000 256).trace.filter isDispatchEv
        = [GLEvent.dispatchCompute ((1000 + 256 - 1) / 256) 1 1]) ∧
      (((1000 + 256 - 1) / 256 : ℕ) : ℤ) = ⌈(1000 : ℚ) / (256 : ℚ)⌉) :=
  ⟨by norm_num, by norm_num, by decide, by decide, by norm_num,
    c9_group_sizing (fun _ => -1) [] [] [] 1000 256 (by norm_num) (by norm_num)
      (by decide) (by decide)⟩

/-- C10.  A uniform descriptor whose name has no active location is silently
skipped: the dispatch completes without any exception, a console warning is
recorded for each such descriptor, no `glUniform*` setter is ever called,
and the compute dispatch still happens — and since the type tag is never
examined on this path, this holds for ANY tag, supported or not. -/
theorem c10_unknown_name_skipped (uloc : String → Int) (ssbos : List ℕ)
    (buffers : List BufferSpec) (uniforms : List UniformSpec) (N g : ℕ)
    (hb : ∀ s ∈ buffers, s.payloadOk = true)
    (hnf : ∀ u ∈ uniforms, uloc u.name = -1) :
    (∃ reads, (GLSLComputeProgram.run uloc ssbos buffers uniforms N g).result = .ok reads) ∧
    (∀ u ∈ uniforms, GLEvent.warnUniformNotFound u.name ∈
      (GLSLComputeProgram.run uloc ssbos buffers uniforms N g).trace) ∧
    (∀ nm tag, GLEvent.uniformSet nm tag ∉
      (GLSLComputeProgram.run uloc ssbos buffers uniforms N g).trace) ∧
    GLEvent.dispatchCompute ((N + g - 1) / g) 1 1 ∈
      (GLSLComputeProgram.run uloc ssbos buffers uniforms N g).trace := by
  obtain ⟨ss2, hB⟩ := setupBuffers_snd_ok buffers ssbos hb
  have hUfull := setUniforms_allNotFound uloc uniforms hnf
  have hU : (setUniforms uloc uniforms).2 = .ok () := by rw [hUfull]
  have hrun : GLSLComputeProgram.run uloc ssbos buffers uniforms N g =
      ⟨(setupBuffers ssbos buffers).1 ++ [GLEvent.useProgram] ++ (setUniforms uloc uniforms).1
         ++ [GLEvent.dispatchCompute ((N + g - 1) / g) 1 1, GLEvent.memoryBarrier,
             GLEvent.finish]
         ++ ((buffers.filter fun s =>
              s.mode == BufMode.outMode || s.mode == BufMode.inoutMode).map
                fun s => (s.binding, s.byteSize)).map (fun p => GLEvent.readBuffer p.1 p.2),
        .ok ((buffers.filter fun s =>
              s.mode == BufMode.outMode || s.mode == BufMode.inoutMode).map
                fun s => (s.binding, s.byteSize))⟩ := by
    simp only [GLSLComputeProgram.run, hB, hU]
  rw [hrun]
  refine ⟨⟨_, rfl⟩, ?_, ?_, ?_⟩
  · intro u hu
    have hw : GLEvent.warnUniformNotFound u.name ∈ (setUniforms uloc uniforms).1 := by
      rw [hUfull]
      simp only [List.mem_bind]
      exact ⟨u, hu, by simp⟩
    simp only [List.mem_append]
    exact Or.inl (Or.inl (Or.inr hw))
  · intro nm tag hmem
    simp only [List.mem_append] at hmem
    rcases hmem with (((h | h) | h) | h) | h
    · exact absurd h (not_mem_of_all (setupBuffers_all_setup buffers ssbos) _ rfl)
    · simp at h
    · rw [hUfull] at h
      simp only [List.mem_bind] at h
      obtain ⟨v, _, hv⟩ := h
      simp at hv
    · simp at h
    · simp only [List.mem_map] at h
      obtain ⟨p, _, hp⟩ := h
      exact GLEvent.noConfusion hp
  · simp only [List.mem_append]
    refine Or.inl (Or.inr ?_)
    simp

/-- C10 witness: a not-found uniform with the unsupported tag "7q" is
skipped with a warning and the dispatch still runs. -/
theorem c10_unknown_name_skipped_witness :
    (∀ s ∈ ([] : List BufferSpec), s.payloadOk = true) ∧
    (∀ u ∈ [c10uniform], (fun _ : String => (-1 : Int)) u.name = -1) ∧
    ((∃ reads, (GLSLComputeProgram.run (fun _ => -1) [] [] [c10uniform] 7 256).result =
        .ok reads) ∧
      (∀ u ∈ [c10uniform], GLEvent.warnUniformNotFound u.name ∈
        (GLSLComputeProgram.run (fun _ => -1) [] [] [c10uniform] 7 256).trace) ∧
      (∀ nm tag, GLEvent.uniformSet nm tag ∉
        (GLSLComputeProgram.run (fun _ => -1) [] [] [c10uniform] 7 256).trace) ∧
      GLEvent.dispatchCompute ((7 + 256 - 1) / 256) 1 1 ∈
        (GLSLComputeProgram.run (fun _ => -1) [] [] [c10uniform] 7 256).trace) :=
  ⟨by decide, by decide,
    c10_unknown_name_skipped (fun _ => -1) [] [] [c10uniform] 7 256 (by decide) (by decide)⟩

end Tuyok
